import Mathlib

/-!
Verification development for the goadb protocol client (src/adb.go).

The file shallowly embeds the client operations of adb.go in Lean.
Pure helpers become Lean functions; the stateful wire connection becomes
explicit state passing on a Conn record that also carries a trace of
protocol events, so that ordering properties (send, status read, close)
can be stated.  Fallible Go functions returning (value, error) become
pairs with an Option Err component, mirroring Go conventions.

The wire package (Conn.SendMessage, Conn.ReadStatus, Conn.ReadMessage,
wire.SendMessageString), the device-list parsers, the error wrapper and
the watcher diff engine are code of this repository that is not under
src/; those definitions are modelled from the spec (sections 4.1, 4.3,
4.4, 4.5, 7) and are marked as such in their doc comments.  Everything
else is translated directly from src/adb.go.
-/

namespace GoAdb

/-- Modelled from the spec: the error taxonomy of section 7 of the spec
(the repository errors package is not under src/).  The client
constructor is the operation-name annotation produced by the error
wrapper wrapClientError, which keeps the kind of its cause. -/
inductive Err where
  | io (msg : String)
  | adb (request message : String)
  | protocol (msg : String)
  | parse (msg : String)
  | refused (msg : String)
  | client (op : String) (cause : Err)
deriving DecidableEq, Repr

/-- The failure kinds named by the spec taxonomy. -/
inductive ErrKind where
  | ioError
  | adbError
  | protocolError
  | parseError
  | connectionRefused
deriving DecidableEq, Repr

/-- Modelled from the spec: the kind of an error; wrapping with an
operation name preserves the kind of the underlying cause. -/
def Err.kind : Err → ErrKind
  | .io _ => .ioError
  | .adb _ _ => .adbError
  | .protocol _ => .protocolError
  | .parse _ => .parseError
  | .refused _ => .connectionRefused
  | .client _ e => e.kind

/-- True exactly when the error carries an operation-name annotation. -/
def isClientWrapped : Err → Bool
  | .client _ _ => true
  | _ => false

/-- Modelled from the spec: wrapClientError annotates an error with the
operation name (spec section 7: errors are annotated with the operation
name and never silently swallowed). -/
def wrapClientError (e : Err) (op : String) : Err := .client op e

/-- Hexadecimal digit test, as in Go strconv for base 16. -/
def isHexDigit (c : Char) : Bool :=
  (decide (48 ≤ c.toNat) && decide (c.toNat ≤ 57)) ||
  (decide (97 ≤ c.toNat) && decide (c.toNat ≤ 102)) ||
  (decide (65 ≤ c.toNat) && decide (c.toNat ≤ 70))

/-- Value of a hexadecimal digit (meaningful only on hex digits). -/
def hexDigitVal (c : Char) : Nat :=
  if 97 ≤ c.toNat then c.toNat - 87
  else if 65 ≤ c.toNat then c.toNat - 55
  else c.toNat - 48

/-- Value of a big-endian string of hexadecimal digits. -/
def hexValNat (cs : List Char) : Nat :=
  cs.foldl (fun acc c => acc * 16 + hexDigitVal c) 0

/-- Lower-case hexadecimal digit character for a value below 16. -/
def hexChar (n : Nat) : Char :=
  if n < 10 then Char.ofNat (48 + n) else Char.ofNat (87 + n)

/-- Four lower-case hexadecimal digits encoding a length, as written by
the wire layer in its frame headers (spec section 4.1). -/
def toHex4 (n : Nat) : String :=
  String.mk [hexChar (n / 4096 % 16), hexChar (n / 256 % 16),
             hexChar (n / 16 % 16), hexChar (n % 16)]

/-- Parse a list of hexadecimal digit characters, case-insensitively,
returning none when some character is not a hexadecimal digit. -/
def parseHexDigits (cs : List Char) : Option Nat :=
  if cs.all isHexDigit then some (hexValNat cs) else none

/-- Modelled from the spec: the bytes a framed write puts on the wire, a
four-hex-digit length header followed by the raw message bytes (spec
sections 4.1 and 6). -/
def frame (msg : String) : String := toHex4 msg.length ++ msg

/-- Observable protocol events of one connection, recorded in order:
a successful framed write, a successful OKAY status read for a given
request context, and the close of the connection. -/
inductive Event where
  | sent (bytes : String)
  | statusOkay (request : String)
  | close
deriving DecidableEq, Repr

/-- Modelled from the spec: one wire connection (spec sections 3 and
4.1).  readBuf holds the bytes the server side will deliver;
writeFailures scripts the outcome of successive framed writes (true
means the underlying transport fails that write; an exhausted script
means writes succeed); trace records the protocol events in order;
closed records whether Close has run. -/
structure Conn where
  readBuf : List Char
  writeFailures : List Bool
  trace : List Event
  closed : Bool
deriving DecidableEq, Repr

/-- Modelled from the spec: read exactly n bytes from the connection,
failing with an IOError on short read (spec section 4.1). -/
def Conn.readBytes (c : Conn) (n : Nat) : Except Err (List Char) × Conn :=
  if n ≤ c.readBuf.length then
    (.ok (c.readBuf.take n), { c with readBuf := c.readBuf.drop n })
  else
    (.error (.io "short read"), { c with readBuf := [] })

/-- Modelled from the spec: SendMessage writes a four-hex-digit length
header for the message followed by the raw bytes, failing with IOError
on an underlying transport failure (spec section 4.1). -/
def Conn.sendMessage (c : Conn) (msg : String) : Option Err × Conn :=
  match c.writeFailures with
  | true :: rest =>
      (some (.io "write error"), { c with writeFailures := rest })
  | false :: rest =>
      (none, { c with writeFailures := rest,
                      trace := c.trace ++ [.sent (frame msg)] })
  | [] =>
      (none, { c with trace := c.trace ++ [.sent (frame msg)] })

/-- Modelled from the spec: ReadMessage reads a four-hex-digit length
header, failing with ProtocolError when it is not valid hexadecimal,
then reads exactly that many bytes (spec section 4.1). -/
def Conn.readMessage (c : Conn) : Except Err String × Conn :=
  match c.readBytes 4 with
  | (.error e, c1) => (.error e, c1)
  | (.ok hdr, c1) =>
    match parseHexDigits hdr with
    | none => (.error (.protocol "bad length header"), c1)
    | some len =>
      match c1.readBytes len with
      | (.error e, c2) => (.error e, c2)
      | (.ok body, c2) => (.ok (String.mk body), c2)

/-- Modelled from the spec: ReadStatus reads exactly four bytes; OKAY
is success, FAIL reads the following length-prefixed frame as the error
message and fails with AdbError carrying the request context and that
message, and any other tag fails with ProtocolError (spec section 4.1). -/
def Conn.readStatus (c : Conn) (request : String) : Option Err × Conn :=
  match c.readBytes 4 with
  | (.error e, c1) => (some e, c1)
  | (.ok st, c1) =>
    if st = "OKAY".data then
      (none, { c1 with trace := c1.trace ++ [.statusOkay request] })
    else if st = "FAIL".data then
      match c1.readMessage with
      | (.error e, c2) => (some e, c2)
      | (.ok msg, c2) => (some (.adb request msg), c2)
    else
      (some (.protocol "unexpected status"), c1)

/-- Modelled from the spec: Close releases the socket; here it marks the
connection closed and records the close event (spec section 4.1). -/
def Conn.close (c : Conn) : Conn :=
  { c with closed := true, trace := c.trace ++ [.close] }

/-!
Device-list parsing.  The parsers parseDeviceList, parseDeviceShort and
parseDeviceLong are called from src/adb.go but live in a file that is
not under src/, so they are modelled from the spec (section 4.4).
List splitting is implemented over character lists so that every
definition evaluates by kernel reduction.
-/

/-- Split a character list at every occurrence of the separator, keeping
empty groups, as Go strings.Split does (so "a\tb" gives two groups and
the empty string gives one empty group). -/
def splitOnChar (sep : Char) : List Char → List (List Char)
  | [] => [[]]
  | c :: rest =>
    if c = sep then [] :: splitOnChar sep rest
    else
      match splitOnChar sep rest with
      | g :: gs => (c :: g) :: gs
      | [] => [[c]]

/-- Split a string at every occurrence of the separator character. -/
def splitString (sep : Char) (s : String) : List String :=
  (splitOnChar sep s.data).map String.mk

/-- Whitespace-delimited fields of a line (space or tab separated,
empty fields dropped), as Go strings.Fields does on such lines. -/
def splitWs : List Char → List Char → List String
  | [], acc => if acc.isEmpty then [] else [String.mk acc.reverse]
  | c :: rest, acc =>
    if c = ' ' || c = '\t' then
      if acc.isEmpty then splitWs rest []
      else String.mk acc.reverse :: splitWs rest []
    else splitWs rest (c :: acc)

/-- Connection states of a device, per the spec data model. -/
inductive DeviceState where
  | device
  | offline
  | unauthorized
  | unknown
deriving DecidableEq, Repr

/-- Modelled from the spec: unrecognized state strings map to the
unknown variant rather than failing (spec section 4.4). -/
def parseState (s : String) : DeviceState :=
  if s = "device" then .device
  else if s = "offline" then .offline
  else if s = "unauthorized" then .unauthorized
  else .unknown

/-- Device record: serial, connection state, and extra attribute
key-value pairs (present only in the long listing format). -/
structure DeviceInfo where
  serial : String
  state : DeviceState
  attrs : List (String × String)
deriving DecidableEq, Repr

/-- Modelled from the spec: a short listing line is serial, tab, state;
only the serial is retained; any other shape is a malformed line and
fails with ParseError (spec section 4.4). -/
def parseDeviceShort (line : String) : Except Err DeviceInfo :=
  match splitString '\t' line with
  | [serial, _] => .ok ⟨serial, .unknown, []⟩
  | fields =>
      .error (.parse ("malformed device line, expected 2 fields but found "
        ++ toString fields.length))

/-- Split an attribute token at its first colon into key and value. -/
def splitAttr (t : String) : String × String :=
  match splitString ':' t with
  | k :: rest => (k, String.intercalate ":" rest)
  | [] => ("", "")

/-- Modelled from the spec: a long listing line is whitespace-delimited
fields, serial then state then key:value attribute tokens; unrecognized
states map to unknown; a line without at least serial and state, or with
an attribute token lacking a colon, is malformed and fails with
ParseError (spec section 4.4). -/
def parseDeviceLong (line : String) : Except Err DeviceInfo :=
  match splitWs line.data [] with
  | serial :: st :: attrTokens =>
    if attrTokens.all (fun t => t.data.contains ':') then
      .ok ⟨serial, parseState st, attrTokens.map splitAttr⟩
    else .error (.parse ("malformed device line: " ++ line))
  | _ => .error (.parse ("malformed device line: " ++ line))

/-- Parse each line in order with the given line parser; the first
malformed line fails the whole parse with its error. -/
def parseLines (pf : String → Except Err DeviceInfo) :
    List String → Except Err (List DeviceInfo)
  | [] => .ok []
  | l :: ls =>
    match pf l with
    | .error e => .error e
    | .ok d =>
      match parseLines pf ls with
      | .error e => .error e
      | .ok ds => .ok (d :: ds)

/-- Drop the trailing empty lines of a split payload. -/
def dropTrailingEmpty (ls : List String) : List String :=
  (ls.reverse.dropWhile (fun l => l = "")).reverse

/-- Modelled from the spec: the device-list payload is a sequence of
lines separated by newline, trailing empty lines ignored; parsing is
all-or-nothing, a malformed line failing the whole call (spec section
4.4). -/
def parseDeviceList (payload : String)
    (pf : String → Except Err DeviceInfo) : Except Err (List DeviceInfo) :=
  parseLines pf (dropTrailingEmpty (splitString '\n' payload))

/-!
Integer parsing for the server version.  parseServerVersion in
src/adb.go calls Go strconv.ParseInt(versionStr, 16, 32): an optional
sign followed by a nonempty run of hexadecimal digits, value required to
fit a signed 32-bit integer, with distinct syntax and range failures.
-/

/-- Failure modes of Go strconv.ParseInt. -/
inductive NumFail where
  | badSyntax
  | outOfRange
deriving DecidableEq, Repr

/-- Consume an optional leading sign, returning whether the numeral is
negated and the remaining characters. -/
def splitSign : List Char → Bool × List Char
  | [] => (false, [])
  | c :: rest =>
    if c = '-' then (true, rest)
    else if c = '+' then (false, rest)
    else (false, c :: rest)

/-- Go strconv.ParseInt with base 16 and bitSize 32: an optional sign
then a nonempty run of hexadecimal digits, failing with a syntax error
otherwise, and with a range error when the value does not fit a signed
32-bit integer. -/
def parseIntBase16Bits32 (s : String) : Except NumFail Int :=
  let p := splitSign s.data
  if p.2.isEmpty then .error .badSyntax
  else if p.2.all isHexDigit then
    let v : Int := if p.1 then -(hexValNat p.2 : Int) else (hexValNat p.2 : Int)
    if v < -(2 ^ 31) then .error .outOfRange
    else if (2 ^ 31 - 1 : Int) < v then .error .outOfRange
    else .ok v
  else .error .badSyntax

/-- parseServerVersion from src/adb.go: parse the raw payload in base
16; any parse failure is wrapped as a ParseError and the zero value is
returned alongside it, as in the Go (int, error) return. -/
def parseServerVersion (versionRaw : String) : Int × Option Err :=
  match parseIntBase16Bits32 versionRaw with
  | .ok v => (v, none)
  | .error _ =>
      (0, some (.parse ("error parsing server version: " ++ versionRaw)))

/-!
Client operations from src/adb.go.

The operations built on roundTripSingleResponse (a helper that is not
under src/; spec section 4.3: dial, send the command, read the status,
read one payload, close) take that helper abstractly as an oracle
rt : String -> Except Err String from the command string to the
round-trip outcome.  The operations that manage their own connection
(KillServer, RestartAdbdTcpip, ForwardDevice) take the dial outcome and
pass the Conn state explicitly; the Go defer conn.Close() is embedded by
closing the connection on every return path after a successful dial, and
the final Conn state is returned alongside the Go result for
verification.
-/

/-- ServerVersion from src/adb.go: round trip host:version, then parse;
both failure paths are wrapped with the operation name GetServerVersion
and return 0. -/
def ServerVersion (rt : String → Except Err String) : Int × Option Err :=
  match rt "host:version" with
  | .error e => (0, some (wrapClientError e "GetServerVersion"))
  | .ok raw =>
    match parseServerVersion raw with
    | (v, none) => (v, none)
    | (_, some e) => (0, some (wrapClientError e "GetServerVersion"))

/-- KillServer from src/adb.go: dial, defer close, send host:kill, and
return; no status tag and no payload are read.  Failures are wrapped
with the operation name KillServer.  The final connection state is
returned alongside the Go error result. -/
def KillServer (dialRes : Except Err Conn) : Option Err × Option Conn :=
  match dialRes with
  | .error e => (some (wrapClientError e "KillServer"), none)
  | .ok c =>
    match c.sendMessage "host:kill" with
    | (some e, c1) => (some (wrapClientError e "KillServer"), some c1.close)
    | (none, c1) => (none, some c1.close)

/-- ListDeviceSerials from src/adb.go: round trip host:devices, parse
the short device list, and keep only the serial of each record in
order; failures are wrapped with the operation name. -/
def ListDeviceSerials (rt : String → Except Err String) :
    Option (List String) × Option Err :=
  match rt "host:devices" with
  | .error e => (none, some (wrapClientError e "ListDeviceSerials"))
  | .ok resp =>
    match parseDeviceList resp parseDeviceShort with
    | .error e => (none, some (wrapClientError e "ListDeviceSerials"))
    | .ok devices => (some (devices.map DeviceInfo.serial), none)

/-- ListDevices from src/adb.go: round trip host:devices-l and parse
the long device list; failures are wrapped with the operation name. -/
def ListDevices (rt : String → Except Err String) :
    Option (List DeviceInfo) × Option Err :=
  match rt "host:devices-l" with
  | .error e => (none, some (wrapClientError e "ListDevices"))
  | .ok resp =>
    match parseDeviceList resp parseDeviceLong with
    | .error e => (none, some (wrapClientError e "ListDevices"))
    | .ok devices => (some devices, none)

/-- ListForwards from src/adb.go: round trip host:list-forward, print
the payload (a side effect with no model here), and return nil data and
nil error, leaving the payload unparsed; round-trip failures are
wrapped with the operation name. -/
def ListForwards (rt : String → Except Err String) :
    Option (List DeviceInfo) × Option Err :=
  match rt "host:list-forward" with
  | .error e => (none, some (wrapClientError e "ListForwards"))
  | .ok _ => (none, none)

/-- The command string Connect sends, built as in src/adb.go. -/
def connectCmd (host : String) (port : Int) : String :=
  "host:connect:" ++ host ++ ":" ++ toString port

/-- Connect from src/adb.go: round trip host:connect:host:port and
discard the payload; only a round-trip failure is returned, wrapped
with the operation name. -/
def Connect (rt : String → Except Err String) (host : String)
    (port : Int) : Option Err :=
  match rt (connectCmd host port) with
  | .error e => some (wrapClientError e "Connect")
  | .ok _ => none

/-- The transport-selection request of the two-step protocol. -/
def tportReq (serial : String) : String := "host:tport:serial:" ++ serial

/-- The forward action request of ForwardDevice. -/
def forwardReq (localPort devicePort : Int) : String :=
  "host:forward:tcp:" ++ toString localPort ++ ";tcp:" ++ toString devicePort

/-- The tcpip action request of RestartAdbdTcpip. -/
def tcpipReq (devicePort : Int) : String :=
  "tcpip:" ++ toString devicePort

/-- The shared body of ForwardDevice and RestartAdbdTcpip in
src/adb.go after a successful dial, which is literally the same in
both: send the first request, read its status, send the second request
on the same connection, read its status, each failure returned
immediately. -/
def twoStepBody (c : Conn) (req1 req2 : String) : Option Err × Conn :=
  match c.sendMessage req1 with
  | (some e, c1) => (some e, c1)
  | (none, c1) =>
    match c1.readStatus req1 with
    | (some e, c2) => (some e, c2)
    | (none, c2) =>
      match c2.sendMessage req2 with
      | (some e, c3) => (some e, c3)
      | (none, c3) =>
        match c3.readStatus req2 with
        | (some e, c4) => (some e, c4)
        | (none, c4) => (none, c4)

/-- ForwardDevice from src/adb.go: on dial failure the error is
returned unchanged (no operation-name wrapping in the source); after a
successful dial the two-step body runs and the deferred close runs on
every return path.  The final connection state is returned alongside
the Go error result. -/
def ForwardDevice (dialRes : Except Err Conn) (serial : String)
    (localPort devicePort : Int) : Option Err × Option Conn :=
  match dialRes with
  | .error e => (some e, none)
  | .ok c =>
    let p := twoStepBody c (tportReq serial) (forwardReq localPort devicePort)
    (p.1, some p.2.close)

/-- RestartAdbdTcpip from src/adb.go: identical to ForwardDevice except
that the second request is tcpip:port. -/
def RestartAdbdTcpip (dialRes : Except Err Conn) (serial : String)
    (devicePort : Int) : Option Err × Option Conn :=
  match dialRes with
  | .error e => (some e, none)
  | .ok c =>
    let p := twoStepBody c (tportReq serial) (tcpipReq devicePort)
    (p.1, some p.2.close)

/-!
Device watcher diff engine.  NewDeviceWatcher in src/adb.go only
delegates to a constructor that is not under src/, so the diff step is
modelled from the spec (section 4.5 and the testable property of
section 8).
-/

/-- A change event: the devices added and the devices removed between
two successive snapshots, keyed by serial. -/
structure ChangeEvent where
  added : Finset String
  removed : Finset String
deriving DecidableEq

/-- Modelled from the spec: the watcher compares successive snapshots
keyed by serial and emits one event when they differ, whose added set
is the devices present now but absent before and whose removed set is
the devices present before but absent now; equal snapshots emit
nothing (spec sections 4.5 and 8). -/
def diffEvents (old new : Finset String) : List ChangeEvent :=
  if new = old then [] else [⟨new \ old, old \ new⟩]

/-!
Helper lemmas about the connection primitives.
-/

lemma readBytes_snd_trace (c : Conn) (n : Nat) :
    ((c.readBytes n).2).trace = c.trace := by
  unfold Conn.readBytes; split <;> rfl

lemma sendMessage_snd_readBuf (c : Conn) (m : String) :
    ((c.sendMessage m).2).readBuf = c.readBuf := by
  unfold Conn.sendMessage
  rcases c.writeFailures with _ | ⟨_ | _, rest⟩ <;> rfl

lemma sendMessage_none_trace (c : Conn) (m : String) (c' : Conn)
    (h : c.sendMessage m = (none, c')) :
    c'.trace = c.trace ++ [Event.sent (frame m)] := by
  unfold Conn.sendMessage at h
  rcases hw : c.writeFailures with _ | ⟨_ | _, rest⟩ <;> rw [hw] at h <;>
    simp_all <;> subst h <;> rfl

lemma readStatus_none_trace (c : Conn) (r : String) (c' : Conn)
    (h : c.readStatus r = (none, c')) :
    c'.trace = c.trace ++ [Event.statusOkay r] := by
  unfold Conn.readStatus at h
  split at h
  · simp at h
  · rename_i st c1 heq
    have htr : c1.trace = c.trace := by
      have h2 : (c.readBytes 4).2 = c1 := by rw [heq]
      rw [← h2, readBytes_snd_trace]
    split at h
    · simp only [Prod.mk.injEq] at h
      rw [← h.2]
      simp [htr]
    · split at h
      · split at h <;> simp at h
      · simp at h

lemma close_closed (c : Conn) : c.close.closed = true := rfl

lemma close_trace (c : Conn) : c.close.trace = c.trace ++ [Event.close] := rfl

lemma close_readBuf (c : Conn) : c.close.readBuf = c.readBuf := rfl

/-!
Helper lemmas about the shared two-step body.
-/

lemma twoStepBody_none_trace (c : Conn) (r1 r2 : String) (c' : Conn)
    (h : twoStepBody c r1 r2 = (none, c')) :
    c'.trace = c.trace ++ [Event.sent (frame r1), Event.statusOkay r1,
      Event.sent (frame r2), Event.statusOkay r2] := by
  unfold twoStepBody at h
  split at h
  · simp at h
  · rename_i c1 heq1
    split at h
    · simp at h
    · rename_i c2 heq2
      split at h
      · simp at h
      · rename_i c3 heq3
        split at h
        · simp at h
        · rename_i c4 heq4
          simp only [Prod.mk.injEq] at h
          rw [← h.2]
          rw [readStatus_none_trace _ _ _ heq4,
              sendMessage_none_trace _ _ _ heq3,
              readStatus_none_trace _ _ _ heq2,
              sendMessage_none_trace _ _ _ heq1]
          simp

lemma twoStepBody_abort_send1 (c : Conn) (r1 r2 : String) (e : Err)
    (c1 : Conn) (h : c.sendMessage r1 = (some e, c1)) :
    twoStepBody c r1 r2 = (some e, c1) := by
  unfold twoStepBody; rw [h]

lemma twoStepBody_abort_status1 (c : Conn) (r1 r2 : String) (c1 : Conn)
    (e : Err) (c2 : Conn) (h1 : c.sendMessage r1 = (none, c1))
    (h2 : c1.readStatus r1 = (some e, c2)) :
    twoStepBody c r1 r2 = (some e, c2) := by
  simp only [twoStepBody, h1, h2]

lemma twoStepBody_abort_send2 (c : Conn) (r1 r2 : String) (c1 c2 : Conn)
    (e : Err) (c3 : Conn) (h1 : c.sendMessage r1 = (none, c1))
    (h2 : c1.readStatus r1 = (none, c2))
    (h3 : c2.sendMessage r2 = (some e, c3)) :
    twoStepBody c r1 r2 = (some e, c3) := by
  simp only [twoStepBody, h1, h2, h3]

lemma twoStepBody_abort_status2 (c : Conn) (r1 r2 : String)
    (c1 c2 c3 : Conn) (e : Err) (c4 : Conn)
    (h1 : c.sendMessage r1 = (none, c1))
    (h2 : c1.readStatus r1 = (none, c2))
    (h3 : c2.sendMessage r2 = (none, c3))
    (h4 : c3.readStatus r2 = (some e, c4)) :
    twoStepBody c r1 r2 = (some e, c4) := by
  simp only [twoStepBody, h1, h2, h3, h4]

/-- C5: every client operation that successfully dials a connection
(KillServer, RestartAdbdTcpip, ForwardDevice) closes that connection on
every exit path, success or error; no operation returns while still
holding an open connection, and a failed dial yields no connection at
all. -/
theorem adb_conns_closed_on_exit :
    ∀ (dialRes : Except Err Conn) (serial : String)
      (localPort devicePort : Int) (c' : Conn),
      ((KillServer dialRes).2 = some c' → c'.closed = true) ∧
      ((ForwardDevice dialRes serial localPort devicePort).2 = some c' →
        c'.closed = true) ∧
      ((RestartAdbdTcpip dialRes serial devicePort).2 = some c' →
        c'.closed = true) := by
  intro dialRes serial localPort devicePort c'
  refine ⟨?_, ?_, ?_⟩ <;> intro h
  · cases dialRes with
    | error e => simp [KillServer] at h
    | ok c =>
      simp only [KillServer] at h
      split at h <;> (simp at h; rw [← h]; rfl)
  · cases dialRes with
    | error e => simp [ForwardDevice] at h
    | ok c =>
      simp only [ForwardDevice] at h
      simp at h; rw [← h]; rfl
  · cases dialRes with
    | error e => simp [RestartAdbdTcpip] at h
    | ok c =>
      simp only [RestartAdbdTcpip] at h
      simp at h; rw [← h]; rfl

/-- Witness for C5 at a concrete connection: KillServer on a freshly
dialed connection leaves it closed. -/
theorem adb_conns_closed_on_exit_witness :
    (⟨[], [], [Event.sent (frame "host:kill"), Event.close], true⟩ :
      Conn).closed = true :=
  (adb_conns_closed_on_exit (.ok ⟨[], [], [], false⟩) "s" 1 2
    ⟨[], [], [Event.sent (frame "host:kill"), Event.close], true⟩).1 rfl

/-- C3: ForwardDevice and RestartAdbdTcpip each run the two-step
transport-selection protocol on the single dialed connection: on
success the connection trace shows, in order, the framed send of
host:tport:serial:serial, its OKAY status read, the framed send of the
action command on the same connection, its OKAY status read, and only
then the close, so the connection is not closed between the two sends;
and the failure of any step returns that error immediately, with no
further protocol step before the deferred close. -/
theorem forward_tcpip_two_step :
    ∀ (c : Conn) (serial : String) (localPort devicePort : Int),
      ((∀ c', ForwardDevice (.ok c) serial localPort devicePort =
          (none, some c') →
          c'.trace = c.trace ++ [Event.sent (frame (tportReq serial)),
            Event.statusOkay (tportReq serial),
            Event.sent (frame (forwardReq localPort devicePort)),
            Event.statusOkay (forwardReq localPort devicePort),
            Event.close]) ∧
       (∀ e c1, c.sendMessage (tportReq serial) = (some e, c1) →
          ForwardDevice (.ok c) serial localPort devicePort =
            (some e, some c1.close)) ∧
       (∀ c1 e c2, c.sendMessage (tportReq serial) = (none, c1) →
          c1.readStatus (tportReq serial) = (some e, c2) →
          ForwardDevice (.ok c) serial localPort devicePort =
            (some e, some c2.close)) ∧
       (∀ c1 c2 e c3, c.sendMessage (tportReq serial) = (none, c1) →
          c1.readStatus (tportReq serial) = (none, c2) →
          c2.sendMessage (forwardReq localPort devicePort) = (some e, c3) →
          ForwardDevice (.ok c) serial localPort devicePort =
            (some e, some c3.close)) ∧
       (∀ c1 c2 c3 e c4, c.sendMessage (tportReq serial) = (none, c1) →
          c1.readStatus (tportReq serial) = (none, c2) →
          c2.sendMessage (forwardReq localPort devicePort) = (none, c3) →
          c3.readStatus (forwardReq localPort devicePort) = (some e, c4) →
          ForwardDevice (.ok c) serial localPort devicePort =
            (some e, some c4.close))) ∧
      ((∀ c', RestartAdbdTcpip (.ok c) serial devicePort = (none, some c') →
          c'.trace = c.trace ++ [Event.sent (frame (tportReq serial)),
            Event.statusOkay (tportReq serial),
            Event.sent (frame (tcpipReq devicePort)),
            Event.statusOkay (tcpipReq devicePort), Event.close]) ∧
       (∀ e c1, c.sendMessage (tportReq serial) = (some e, c1) →
          RestartAdbdTcpip (.ok c) serial devicePort =
            (some e, some c1.close)) ∧
       (∀ c1 e c2, c.sendMessage (tportReq serial) = (none, c1) →
          c1.readStatus (tportReq serial) = (some e, c2) →
          RestartAdbdTcpip (.ok c) serial devicePort =
            (some e, some c2.close)) ∧
       (∀ c1 c2 e c3, c.sendMessage (tportReq serial) = (none, c1) →
          c1.readStatus (tportReq serial) = (none, c2) →
          c2.sendMessage (tcpipReq devicePort) = (some e, c3) →
          RestartAdbdTcpip (.ok c) serial devicePort =
            (some e, some c3.close)) ∧
       (∀ c1 c2 c3 e c4, c.sendMessage (tportReq serial) = (none, c1) →
          c1.readStatus (tportReq serial) = (none, c2) →
          c2.sendMessage (tcpipReq devicePort) = (none, c3) →
          c3.readStatus (tcpipReq devicePort) = (some e, c4) →
          RestartAdbdTcpip (.ok c) serial devicePort =
            (some e, some c4.close))) := by
  intro c serial localPort devicePort
  constructor
  · refine ⟨?_, ?_, ?_, ?_, ?_⟩
    · intro c' h
      simp only [ForwardDevice] at h
      rcases hP : twoStepBody c (tportReq serial)
          (forwardReq localPort devicePort) with ⟨r, cB⟩
      rw [hP] at h
      simp only [Prod.mk.injEq, Option.some.injEq] at h
      obtain ⟨hr, hc⟩ := h
      subst hr
      rw [← hc, close_trace, twoStepBody_none_trace _ _ _ _ hP]
      simp
    · intro e c1 h
      simp only [ForwardDevice, twoStepBody_abort_send1 _ _
        (forwardReq localPort devicePort) _ _ h]
    · intro c1 e c2 h1 h2
      simp only [ForwardDevice, twoStepBody_abort_status1 _ _
        (forwardReq localPort devicePort) _ _ _ h1 h2]
    · intro c1 c2 e c3 h1 h2 h3
      simp only [ForwardDevice, twoStepBody_abort_send2 _ _ _ _ _ _ _
        h1 h2 h3]
    · intro c1 c2 c3 e c4 h1 h2 h3 h4
      simp only [ForwardDevice, twoStepBody_abort_status2 _ _ _ _ _ _ _ _
        h1 h2 h3 h4]
  · refine ⟨?_, ?_, ?_, ?_, ?_⟩
    · intro c' h
      simp only [RestartAdbdTcpip] at h
      rcases hP : twoStepBody c (tportReq serial)
          (tcpipReq devicePort) with ⟨r, cB⟩
      rw [hP] at h
      simp only [Prod.mk.injEq, Option.some.injEq] at h
      obtain ⟨hr, hc⟩ := h
      subst hr
      rw [← hc, close_trace, twoStepBody_none_trace _ _ _ _ hP]
      simp
    · intro e c1 h
      simp only [RestartAdbdTcpip, twoStepBody_abort_send1 _ _
        (tcpipReq devicePort) _ _ h]
    · intro c1 e c2 h1 h2
      simp only [RestartAdbdTcpip, twoStepBody_abort_status1 _ _
        (tcpipReq devicePort) _ _ _ h1 h2]
    · intro c1 c2 e c3 h1 h2 h3
      simp only [RestartAdbdTcpip, twoStepBody_abort_send2 _ _ _ _ _ _ _
        h1 h2 h3]
    · intro c1 c2 c3 e c4 h1 h2 h3 h4
      simp only [RestartAdbdTcpip, twoStepBody_abort_status2 _ _ _ _ _ _ _ _
        h1 h2 h3 h4]

/-- Witness for C3 at a concrete connection whose read stream answers
OKAY to both status reads: the full two-step trace is produced, with
the close only at the end. -/
theorem forward_tcpip_two_step_witness :
    ∃ c', ForwardDevice (.ok ⟨"OKAYOKAY".data, [], [], false⟩) "X" 1 2 =
      (none, some c') ∧
      c'.trace = [] ++ [Event.sent (frame (tportReq "X")),
        Event.statusOkay (tportReq "X"), Event.sent (frame (forwardReq 1 2)),
        Event.statusOkay (forwardReq 1 2), Event.close] :=
  ⟨_, rfl, (forward_tcpip_two_step ⟨"OKAYOKAY".data, [], [], false⟩
    "X" 1 2).1.1 _ rfl⟩

/-- C1 counterexample: KillServer returns success without reading any
status tag.  On a connection whose pending response is a FAIL status,
KillServer still succeeds, and the read stream is untouched (the trace
holds only the framed send and the close, and readBuf still holds the
full FAIL response). -/
theorem KillServer_no_status_read_cex :
    (KillServer (.ok ⟨"FAIL0004oops".data, [], [], false⟩)).1 = none ∧
    (KillServer (.ok ⟨"FAIL0004oops".data, [], [], false⟩)).2 =
      some ⟨"FAIL0004oops".data, [],
        [Event.sent (frame "host:kill"), Event.close], true⟩ :=
  ⟨rfl, rfl⟩

/-- C1 amended: after KillServer sends the host:kill command on its
freshly dialed connection, it returns without reading any status tag or
payload (the connection read stream is untouched); it returns success
exactly when the dial and the framed send succeed, and wraps any
failure with the operation name KillServer. -/
theorem KillServer_sends_and_reads_nothing :
    ∀ (c : Conn),
      (∀ e, KillServer (.error e) =
        (some (Err.client "KillServer" e), none)) ∧
      (∀ c1, c.sendMessage "host:kill" = (none, c1) →
        KillServer (.ok c) = (none, some c1.close) ∧
        c1.close.readBuf = c.readBuf ∧
        c1.close.trace = c.trace ++
          [Event.sent (frame "host:kill"), Event.close]) ∧
      (∀ e c1, c.sendMessage "host:kill" = (some e, c1) →
        KillServer (.ok c) = (some (Err.client "KillServer" e), some c1.close) ∧
        c1.close.readBuf = c.readBuf) := by
  intro c
  refine ⟨fun e => rfl, ?_, ?_⟩
  · intro c1 h
    have hb : c1.readBuf = c.readBuf := by
      have h2 : (c.sendMessage "host:kill").2 = c1 := by rw [h]
      rw [← h2, sendMessage_snd_readBuf]
    refine ⟨?_, ?_, ?_⟩
    · simp only [KillServer, h]
    · rw [close_readBuf, hb]
    · rw [close_trace, sendMessage_none_trace _ _ _ h]
      simp
  · intro e c1 h
    have hb : c1.readBuf = c.readBuf := by
      have h2 : (c.sendMessage "host:kill").2 = c1 := by rw [h]
      rw [← h2, sendMessage_snd_readBuf]
    refine ⟨?_, ?_⟩
    · simp only [KillServer, h, wrapClientError]
    · rw [close_readBuf, hb]

/-- Witness for the amended C1 at a concrete connection: the send
succeeds, KillServer returns success, and the read stream is untouched. -/
theorem KillServer_sends_and_reads_nothing_witness :
    KillServer (.ok ⟨"OKAY".data, [], [], false⟩) =
      (none, some (⟨"OKAY".data, [],
        [Event.sent (frame "host:kill")], false⟩ : Conn).close) ∧
    (⟨"OKAY".data, [], [Event.sent (frame "host:kill")], false⟩ :
      Conn).close.readBuf = "OKAY".data ∧
    (⟨"OKAY".data, [], [Event.sent (frame "host:kill")], false⟩ :
      Conn).close.trace = [] ++ [Event.sent (frame "host:kill"), Event.close] :=
  (KillServer_sends_and_reads_nothing ⟨"OKAY".data, [], [], false⟩).2.1
    ⟨"OKAY".data, [], [Event.sent (frame "host:kill")], false⟩ rfl

/-- C4 counterexample: ForwardDevice returns a dial failure to the
caller unchanged, with no operation-name annotation. -/
theorem ForwardDevice_unannotated_error_cex :
    ForwardDevice (.error (Err.io "connection refused")) "serial" 1 2 =
      (some (Err.io "connection refused"), none) ∧
    isClientWrapped (Err.io "connection refused") = false :=
  ⟨rfl, rfl⟩

/-- C4 amended: ServerVersion, ListDeviceSerials, ListDevices,
ListForwards, Connect and KillServer annotate every error they return
with their operation name; ForwardDevice and RestartAdbdTcpip do not
annotate, propagating a dial failure to the caller unchanged (errors
are still never swallowed). -/
theorem client_error_wrapping :
    (∀ (rt : String → Except Err String) (e : Err),
       (ServerVersion rt).2 = some e →
       ∃ cause, e = Err.client "GetServerVersion" cause) ∧
    (∀ (rt : String → Except Err String) (e : Err),
       (ListDeviceSerials rt).2 = some e →
       ∃ cause, e = Err.client "ListDeviceSerials" cause) ∧
    (∀ (rt : String → Except Err String) (e : Err),
       (ListDevices rt).2 = some e →
       ∃ cause, e = Err.client "ListDevices" cause) ∧
    (∀ (rt : String → Except Err String) (e : Err),
       (ListForwards rt).2 = some e →
       ∃ cause, e = Err.client "ListForwards" cause) ∧
    (∀ (rt : String → Except Err String) (host : String) (port : Int)
       (e : Err), Connect rt host port = some e →
       ∃ cause, e = Err.client "Connect" cause) ∧
    (∀ (dialRes : Except Err Conn) (e : Err),
       (KillServer dialRes).1 = some e →
       ∃ cause, e = Err.client "KillServer" cause) ∧
    (∀ (e : Err) (serial : String) (localPort devicePort : Int),
       ForwardDevice (.error e) serial localPort devicePort =
         (some e, none)) ∧
    (∀ (e : Err) (serial : String) (devicePort : Int),
       RestartAdbdTcpip (.error e) serial devicePort = (some e, none)) := by
  refine ⟨?_, ?_, ?_, ?_, ?_, ?_, fun e _ _ _ => rfl, fun e _ _ => rfl⟩
  · intro rt e h
    simp only [ServerVersion] at h
    split at h
    · injection h with h; exact ⟨_, h.symm⟩
    · split at h
      · simp at h
      · injection h with h; exact ⟨_, h.symm⟩
  · intro rt e h
    simp only [ListDeviceSerials] at h
    split at h
    · injection h with h; exact ⟨_, h.symm⟩
    · split at h
      · injection h with h; exact ⟨_, h.symm⟩
      · simp at h
  · intro rt e h
    simp only [ListDevices] at h
    split at h
    · injection h with h; exact ⟨_, h.symm⟩
    · split at h
      · injection h with h; exact ⟨_, h.symm⟩
      · simp at h
  · intro rt e h
    simp only [ListForwards] at h
    split at h
    · injection h with h; exact ⟨_, h.symm⟩
    · simp at h
  · intro rt host port e h
    simp only [Connect] at h
    split at h
    · injection h with h; exact ⟨_, h.symm⟩
    · simp at h
  · intro dialRes e h
    cases dialRes with
    | error e0 => injection h with h; exact ⟨_, h.symm⟩
    | ok c =>
      simp only [KillServer] at h
      split at h
      · injection h with h; exact ⟨_, h.symm⟩
      · simp at h

/-- Witness for the amended C4 at concrete inputs: a round-trip failure
of ServerVersion comes back wrapped with the operation name, while
ForwardDevice passes the same failure through unwrapped. -/
theorem client_error_wrapping_witness :
    (∃ cause, Err.client "GetServerVersion" (Err.io "boom") =
      Err.client "GetServerVersion" cause) ∧
    ForwardDevice (.error (Err.io "boom")) "s" 1 2 =
      (some (Err.io "boom"), none) :=
  ⟨client_error_wrapping.1 (fun _ => .error (.io "boom")) _ rfl,
   client_error_wrapping.2.2.2.2.2.2.1 (Err.io "boom") "s" 1 2⟩

/-- C8: ListForwards returns no data: whenever its host:list-forward
round trip succeeds it returns nil data and nil error, leaving the
payload unparsed, and on round-trip failure it returns the error
wrapped with the operation name. -/
theorem ListForwards_returns_nothing :
    ∀ (rt : String → Except Err String),
      (∀ payload, rt "host:list-forward" = .ok payload →
        ListForwards rt = (none, none)) ∧
      (∀ e, rt "host:list-forward" = .error e →
        ListForwards rt = (none, some (Err.client "ListForwards" e))) := by
  intro rt
  constructor <;> intro x h <;> simp [ListForwards, wrapClientError, h]

/-- Witness for C8 at concrete round trips: a successful listing gives
nil data and nil error; a failing round trip gives the wrapped error. -/
theorem ListForwards_returns_nothing_witness :
    ListForwards (fun _ => .ok "tcp:5555 tcp:5555 emulator-5554") =
      (none, none) ∧
    ListForwards (fun _ => .error (Err.io "reset")) =
      (none, some (Err.client "ListForwards" (Err.io "reset"))) :=
  ⟨(ListForwards_returns_nothing (fun _ => .ok
      "tcp:5555 tcp:5555 emulator-5554")).1 _ rfl,
   (ListForwards_returns_nothing (fun _ => .error (Err.io "reset"))).2 _ rfl⟩

/-- C10: Connect decides success solely from the round-trip status
handling and discards the payload: whenever the round trip of
host:connect:host:port succeeds, Connect returns nil whatever the
payload says, and on round-trip failure it returns the wrapped error. -/
theorem Connect_ignores_payload :
    ∀ (rt : String → Except Err String) (host : String) (port : Int),
      (∀ payload, rt (connectCmd host port) = .ok payload →
        Connect rt host port = none) ∧
      (∀ e, rt (connectCmd host port) = .error e →
        Connect rt host port = some (Err.client "Connect" e)) := by
  intro rt host port
  constructor <;> intro x h <;> simp [Connect, wrapClientError, h]

/-- Witness for C10 at a concrete input: the payload text itself
describes a connection failure, yet Connect returns success because the
round trip succeeded. -/
theorem Connect_ignores_payload_witness :
    Connect (fun _ => .ok "failed to connect to 192.168.1.5:5555")
      "192.168.1.5" 5555 = none :=
  (Connect_ignores_payload (fun _ => .ok
    "failed to connect to 192.168.1.5:5555") "192.168.1.5" 5555).1 _ rfl

/-!
Version parsing claims.  The claims speak of a valid hex numeral; the
following two definitions follow the words of the claims (a nonempty
string of hexadecimal digits and its value), to be compared with the
behavior of the parser translated from the source.
-/

/-- Definition following the words of the claims: a valid hexadecimal
numeral is a nonempty string of hexadecimal digits. -/
def specValidHexNumeral (s : String) : Bool :=
  !s.data.isEmpty && s.data.all isHexDigit

/-- Definition following the words of the claims: the integer value of
a hexadecimal numeral. -/
def hexNumeralVal (s : String) : Nat := hexValNat s.data

/-- The syntax Go ParseInt accepts with an explicit base: an optional
sign then a nonempty run of hexadecimal digits. -/
def goHexSyntax (s : String) : Bool :=
  !(splitSign s.data).2.isEmpty && (splitSign s.data).2.all isHexDigit

/-- The signed value of an optionally signed hexadecimal numeral. -/
def goHexVal (s : String) : Int :=
  if (splitSign s.data).1 then -(hexValNat (splitSign s.data).2 : Int)
  else (hexValNat (splitSign s.data).2 : Int)

lemma splitSign_all_hex (cs : List Char) (hne : cs.isEmpty = false)
    (hall : cs.all isHexDigit = true) : splitSign cs = (false, cs) := by
  cases cs with
  | nil => simp at hne
  | cons c rest =>
    have hc : isHexDigit c = true := by
      simp only [List.all_cons, Bool.and_eq_true] at hall
      exact hall.1
    have h1 : ¬ c = '-' := by
      intro h; subst h; exact absurd hc (by decide)
    have h2 : ¬ c = '+' := by
      intro h; subst h; exact absurd hc (by decide)
    simp [splitSign, h1, h2]

lemma parseIntBase16Bits32_eq (s : String) :
    parseIntBase16Bits32 s =
      if goHexSyntax s = false then .error .badSyntax
      else if goHexVal s < -(2 ^ 31) then .error .outOfRange
      else if (2 ^ 31 - 1 : Int) < goHexVal s then .error .outOfRange
      else .ok (goHexVal s) := by
  unfold parseIntBase16Bits32 goHexSyntax goHexVal
  rcases he : (splitSign s.data).2.isEmpty with _ | _
  · rcases ha : (splitSign s.data).2.all isHexDigit with _ | _
    · simp [he, ha]
    · simp [he, ha]
  · simp [he]

/-- C2 counterexample: the string of eight f digits is a valid
hexadecimal numeral of value 4294967295, but parseServerVersion does
not return that integer: it returns 0 together with a ParseError-kind
error, because the value exceeds the signed 32-bit range. -/
theorem parseServerVersion_overflow_cex :
    specValidHexNumeral "ffffffff" = true ∧
    hexNumeralVal "ffffffff" = 4294967295 ∧
    parseServerVersion "ffffffff" ≠ ((4294967295 : Int), none) ∧
    parseServerVersion "ffffffff" =
      (0, some (Err.parse "error parsing server version: ffffffff")) ∧
    (Err.parse "error parsing server version: ffffffff").kind =
      ErrKind.parseError := by
  refine ⟨by decide, by decide, by decide, rfl, rfl⟩

/-- C2 amended: ServerVersion parses the payload as a hexadecimal ASCII
integer in base 16 into a signed 32-bit result.  For every payload that
is an optionally signed hexadecimal numeral whose value fits the signed
32-bit range (in particular every valid hex numeral of value at most
2^31 - 1, such as 0029, which parses to 41) it returns that integer;
for every payload that is not such a numeral (such as zz) it returns 0
together with a ParseError-kind error; a numeral whose value is outside
the range also returns 0 with a ParseError-kind error. -/
theorem ServerVersion_parses_base16 :
    ∀ (s : String) (rt : String → Except Err String),
      rt "host:version" = .ok s →
      (goHexSyntax s = true → -(2 ^ 31) ≤ goHexVal s →
        goHexVal s ≤ 2 ^ 31 - 1 →
        parseServerVersion s = (goHexVal s, none) ∧
        ServerVersion rt = (goHexVal s, none)) ∧
      (goHexSyntax s = false →
        parseServerVersion s =
          (0, some (Err.parse ("error parsing server version: " ++ s))) ∧
        ServerVersion rt = (0, some (Err.client "GetServerVersion"
          (Err.parse ("error parsing server version: " ++ s)))) ∧
        (Err.parse ("error parsing server version: " ++ s)).kind =
          ErrKind.parseError) ∧
      (specValidHexNumeral s = true →
        goHexSyntax s = true ∧ goHexVal s = (hexNumeralVal s : Int)) := by
  intro s rt hrt
  refine ⟨?_, ?_, ?_⟩
  · intro hsyn hlo hhi
    have hp : parseIntBase16Bits32 s = .ok (goHexVal s) := by
      rw [parseIntBase16Bits32_eq]
      rw [if_neg (by simp [hsyn]), if_neg (by omega), if_neg (by omega)]
    have hps : parseServerVersion s = (goHexVal s, none) := by
      unfold parseServerVersion
      rw [hp]
    refine ⟨hps, ?_⟩
    simp only [ServerVersion, hrt, hps]
  · intro hsyn
    have hp : parseIntBase16Bits32 s = .error .badSyntax := by
      rw [parseIntBase16Bits32_eq, if_pos hsyn]
    have hps : parseServerVersion s =
        (0, some (Err.parse ("error parsing server version: " ++ s))) := by
      unfold parseServerVersion
      rw [hp]
    refine ⟨hps, ?_, rfl⟩
    simp only [ServerVersion, hrt, hps, wrapClientError]
  · intro hv
    simp only [specValidHexNumeral, Bool.and_eq_true, Bool.not_eq_true']
      at hv
    have hs := splitSign_all_hex s.data hv.1 hv.2
    constructor
    · simp [goHexSyntax, hs, hv.1, hv.2]
    · simp [goHexVal, hs, hexNumeralVal]

/-- Witness for the amended C2: the payload 0029 parses to 41 and the
payload zz fails with a ParseError-kind error carrying 0. -/
theorem ServerVersion_parses_base16_witness :
    (parseServerVersion "0029" = (41, none) ∧
     ServerVersion (fun _ => .ok "0029") = (41, none)) ∧
    (parseServerVersion "zz" =
       (0, some (Err.parse "error parsing server version: zz")) ∧
     ServerVersion (fun _ => .ok "zz") =
       (0, some (Err.client "GetServerVersion"
         (Err.parse "error parsing server version: zz"))) ∧
     (Err.parse "error parsing server version: zz").kind =
       ErrKind.parseError) :=
  ⟨(ServerVersion_parses_base16 "0029" (fun _ => .ok "0029") rfl).1
      (by decide) (by decide) (by decide),
   (ServerVersion_parses_base16 "zz" (fun _ => .ok "zz") rfl).2.1
      (by decide)⟩

/-- C9: parseServerVersion parses into a signed 32-bit integer: every
valid hexadecimal numeral whose value exceeds 2^31 - 1 fails with a
ParseError-kind error and a returned value of 0, rather than a
truncated or wrapped value, and ServerVersion propagates that failure
wrapped with the operation name. -/
theorem parseServerVersion_rejects_over_32bit :
    ∀ (s : String) (rt : String → Except Err String),
      specValidHexNumeral s = true →
      (2 ^ 31 - 1 : Int) < (hexNumeralVal s : Int) →
      parseServerVersion s =
        (0, some (Err.parse ("error parsing server version: " ++ s))) ∧
      (Err.parse ("error parsing server version: " ++ s)).kind =
        ErrKind.parseError ∧
      (rt "host:version" = .ok s →
        ServerVersion rt = (0, some (Err.client "GetServerVersion"
          (Err.parse ("error parsing server version: " ++ s))))) := by
  intro s rt hv hbig
  simp only [specValidHexNumeral, Bool.and_eq_true, Bool.not_eq_true'] at hv
  have hs := splitSign_all_hex s.data hv.1 hv.2
  have h1 : goHexSyntax s = true := by simp [goHexSyntax, hs, hv.1, hv.2]
  have h2 : goHexVal s = (hexNumeralVal s : Int) := by
    simp [goHexVal, hs, hexNumeralVal]
  have hp : parseIntBase16Bits32 s = .error .outOfRange := by
    rw [parseIntBase16Bits32_eq]
    have hnonneg : (0 : Int) ≤ (hexNumeralVal s : Int) :=
      Int.natCast_nonneg _
    rw [if_neg (by simp [h1]), if_neg (by omega), if_pos (by omega)]
  have hps : parseServerVersion s =
      (0, some (Err.parse ("error parsing server version: " ++ s))) := by
    unfold parseServerVersion
    rw [hp]
  refine ⟨hps, rfl, ?_⟩
  intro hrt
  simp only [ServerVersion, hrt, hps, wrapClientError]

/-- Witness for C9: nine significant hexadecimal digits, value 2^32,
fail with a ParseError-kind error and a returned value of 0. -/
theorem parseServerVersion_rejects_over_32bit_witness :
    parseServerVersion "100000000" =
      (0, some (Err.parse "error parsing server version: 100000000")) ∧
    (Err.parse "error parsing server version: 100000000").kind =
      ErrKind.parseError ∧
    ServerVersion (fun _ => .ok "100000000") =
      (0, some (Err.client "GetServerVersion"
        (Err.parse "error parsing server version: 100000000"))) :=
  have h := parseServerVersion_rejects_over_32bit "100000000"
    (fun _ => .ok "100000000") (by decide) (by decide)
  ⟨h.1, h.2.1, h.2.2 rfl⟩

/-!
Device-list claims.
-/

lemma parseDeviceShort_error_kind (l : String) (e : Err)
    (h : parseDeviceShort l = .error e) : e.kind = ErrKind.parseError := by
  unfold parseDeviceShort at h
  split at h
  · simp at h
  · injection h with h
    rw [← h]
    rfl

lemma parseLines_short_error_kind (ls : List String) (e : Err)
    (h : parseLines parseDeviceShort ls = .error e) :
    e.kind = ErrKind.parseError := by
  induction ls generalizing e with
  | nil => simp [parseLines] at h
  | cons l ls ih =>
    unfold parseLines at h
    split at h
    · rename_i e0 heq
      injection h with h
      rw [← h]
      exact parseDeviceShort_error_kind l e0 heq
    · split at h
      · rename_i e0 heq
        injection h with h
        rw [← h]
        exact ih e0 heq
      · simp at h

/-- C6: ListDeviceSerials is all-or-nothing and keeps only the serials,
in order: when the short device-list payload parses into n records, the
call returns exactly those n serials in order; when any line of the
payload is malformed, the whole call fails with a ParseError-kind error
and returns no serials. -/
theorem ListDeviceSerials_serials_in_order :
    ∀ (rt : String → Except Err String) (payload : String),
      rt "host:devices" = .ok payload →
      (∀ devs, parseDeviceList payload parseDeviceShort = .ok devs →
        ListDeviceSerials rt = (some (devs.map DeviceInfo.serial), none) ∧
        (devs.map DeviceInfo.serial).length = devs.length ∧
        (∀ (i : Nat) (h1 : i < (devs.map DeviceInfo.serial).length)
           (h2 : i < devs.length),
          (devs.map DeviceInfo.serial).get ⟨i, h1⟩ =
            (devs.get ⟨i, h2⟩).serial)) ∧
      (∀ e, parseDeviceList payload parseDeviceShort = .error e →
        ListDeviceSerials rt = (none, some (Err.client "ListDeviceSerials" e)) ∧
        (Err.client "ListDeviceSerials" e).kind = ErrKind.parseError) := by
  intro rt payload hrt
  constructor
  · intro devs hparse
    refine ⟨?_, List.length_map _ _, ?_⟩
    · simp only [ListDeviceSerials, hrt, hparse]
    · intro i h1 h2
      simp [List.get_eq_getElem, List.getElem_map]
  · intro e hparse
    refine ⟨?_, ?_⟩
    · simp only [ListDeviceSerials, hrt, hparse, wrapClientError]
    · show e.kind = ErrKind.parseError
      exact parseLines_short_error_kind _ e hparse

/-- Witness for C6: the spec example payload yields exactly its one
serial, and a malformed payload fails whole with a ParseError-kind
error and no serials. -/
theorem ListDeviceSerials_serials_in_order_witness :
    ListDeviceSerials (fun _ => .ok "emulator-5554\tdevice\n") =
      (some ["emulator-5554"], none) ∧
    (ListDeviceSerials (fun _ => .ok "bad\n") =
      (none, some (Err.client "ListDeviceSerials"
        (Err.parse "malformed device line, expected 2 fields but found 1"))) ∧
     (Err.client "ListDeviceSerials"
       (Err.parse "malformed device line, expected 2 fields but found 1")).kind =
       ErrKind.parseError) :=
  ⟨((ListDeviceSerials_serials_in_order
      (fun _ => .ok "emulator-5554\tdevice\n") "emulator-5554\tdevice\n"
      rfl).1 [⟨"emulator-5554", DeviceState.unknown, []⟩] rfl).1,
   (ListDeviceSerials_serials_in_order (fun _ => .ok "bad\n") "bad\n"
      rfl).2 (Err.parse "malformed device line, expected 2 fields but found 1")
      rfl⟩

/-- C7: for successive watcher snapshots keyed by serial, the diff
emits exactly one change event when they differ, whose added set is the
devices only in the new snapshot and whose removed set is the devices
only in the old snapshot, and emits nothing when the snapshots are
equal; a differing pair always produces a non-vacuous event. -/
theorem DeviceWatcher_diff_events :
    ∀ (old new : Finset String),
      (new = old → diffEvents old new = []) ∧
      (new ≠ old →
        diffEvents old new = [⟨new \ old, old \ new⟩] ∧
        (∀ x, x ∈ new \ old ↔ x ∈ new ∧ x ∉ old) ∧
        (∀ x, x ∈ old \ new ↔ x ∈ old ∧ x ∉ new) ∧
        ((new \ old).Nonempty ∨ (old \ new).Nonempty)) := by
  intro old new
  constructor
  · intro h
    simp [diffEvents, h]
  · intro h
    refine ⟨by simp [diffEvents, h], fun x => Finset.mem_sdiff,
      fun x => Finset.mem_sdiff, ?_⟩
    by_contra hc
    push_neg at hc
    obtain ⟨h1, h2⟩ := hc
    rw [Finset.not_nonempty_iff_eq_empty, Finset.sdiff_eq_empty_iff_subset]
      at h1 h2
    exact h (Finset.Subset.antisymm h1 h2)

/-- Witness for C7 at the spec example: snapshots A,B then B,C give one
event adding C and removing A. -/
theorem DeviceWatcher_diff_events_witness :
    diffEvents {"A", "B"} {"B", "C"} =
      [⟨({"B", "C"} : Finset String) \ {"A", "B"},
        ({"A", "B"} : Finset String) \ {"B", "C"}⟩] ∧
    ({"B", "C"} : Finset String) \ {"A", "B"} = {"C"} ∧
    ({"A", "B"} : Finset String) \ {"B", "C"} = {"A"} :=
  ⟨((DeviceWatcher_diff_events {"A", "B"} {"B", "C"}).2 (by decide)).1,
   by decide, by decide⟩

end GoAdb
